import Mathlib

/-!
Verification of the Pathfinder locator extraction and stability scoring engine.

The definitions below are a shallow embedding of the TypeScript sources:
  * `src/pf/types.ts`   — data model (`LocatorStrategy`, `ExtractedLocator`, …)
  * `src/pf/score.ts`   — the stability scorer (`scoreLocator`, `scorePageScan`, …)
  * `src/pf/scan_locators.ts` — the pure core of the locator extractor
    (`extractLocatorsForElement`: alternative construction and primary
    strategy selection, with the browser probe results supplied as input)
  * `src/pf/utils.ts`   — `median`, `safeText`

JavaScript numbers are modelled as `Nat`/`Int` for integral quantities and
`ℚ` where the source performs non-integral division (`Math.round` is
`fun q => ⌊q + 1/2⌋`, which is JS rounding for the non-negative values that
occur here).  JS truthiness of optional strings ("" and null/undefined are
falsy) is modelled by `truthy`.  `Array.prototype.sort` (stable since
ES2019) is modelled by `List.mergeSort`, which is a stable sort.
-/

namespace Pathfinder

/-- The locator strategy union type from `src/pf/types.ts`.
The TS literal `"class"` is a Lean keyword, hence the guillemets. -/
inductive LocatorStrategy where
  | role
  | label
  | placeholder
  | aria_label
  | title
  | name_attr
  | id_attr
  | autocomplete
  | testId
  | text
  | css
  | xpath
  | data_attr
  | «class»
deriving DecidableEq, Repr

/-- `STRATEGY_SCORES` from `src/pf/score.ts` (lines 14–29). -/
def STRATEGY_SCORES : LocatorStrategy → Nat
  | .testId => 100
  | .data_attr => 95
  | .id_attr => 90
  | .aria_label => 85
  | .role => 80
  | .autocomplete => 80
  | .name_attr => 75
  | .label => 75
  | .title => 70
  | .placeholder => 70
  | .text => 50
  | .«class» => 40
  | .css => 30
  | .xpath => 20

/-- `INITIAL_ELO` from `src/pf/score.ts`. -/
def INITIAL_ELO : Nat := 1500

/-- One entry of `ExtractedLocator.alternatives`. -/
structure Alternative where
  strategy : LocatorStrategy
  value : String
  isUnique : Bool
deriving DecidableEq, Repr

/-- JS truthiness for an optional string: `null`/`undefined` and `""` are falsy. -/
def truthy : Option String → Bool
  | none => false
  | some s => s ≠ ""

/-- `ExtractedLocator` from `src/pf/types.ts`. -/
structure ExtractedLocator where
  tagName : String
  elementType : String
  strategy : LocatorStrategy
  value : String
  alternatives : List Alternative
  xpath : String
  cssSelector : String
  depth : Nat
  text : Option String
  ariaLabel : Option String
  role : Option String
  classes : Option (List String)
  id : Option String
  name : Option String
  isUnique : Bool
  siblingCount : Nat
  parentTag : Option String
  parentClasses : Option (List String)
deriving DecidableEq, Repr

/-- Hexadecimal digit, case-insensitively (regex class `[0-9a-f]` under `/i`). -/
def isHexChar (c : Char) : Bool :=
  c.isDigit || ('a' ≤ c.toLower && c.toLower ≤ 'f')

/-- Regex `/^[a-z]-[0-9a-f]{5,}$/i` from `isDynamicClass` (css-modules). -/
def dynPat1 : List Char → Bool
  | c :: '-' :: rest => c.isAlpha && decide (rest.length ≥ 5) && rest.all isHexChar
  | _ => false

/-- Regex `/^[a-z]{1,3}[0-9]{3,}$/i` (short prefix + numbers). -/
def dynPat2 (s : List Char) : Bool :=
  let letters := s.takeWhile Char.isAlpha
  let rest := s.dropWhile Char.isAlpha
  decide (1 ≤ letters.length) && decide (letters.length ≤ 3) &&
    decide (rest.length ≥ 3) && rest.all Char.isDigit

/-- Regex `/^_[a-z0-9_-]{10,}$/i` (webpack). -/
def dynPat3 : List Char → Bool
  | '_' :: rest =>
      decide (rest.length ≥ 10) &&
        rest.all fun c => c.isAlpha || c.isDigit || c = '_' || c = '-'
  | _ => false

/-- Whether the string starts with `__` followed by at least 6 hex chars. -/
def doubleUnderscoreHexHere : List Char → Bool
  | '_' :: '_' :: rest => decide (rest.length ≥ 6) && (rest.take 6).all isHexChar
  | _ => false

/-- Regex `/__[0-9a-f]{6,}/i` (hash suffix, unanchored): the pattern may
match starting at any position. -/
def dynPat4 : List Char → Bool
  | [] => false
  | c :: rest => doubleUnderscoreHexHere (c :: rest) || dynPat4 rest

/-- Regex `/^css-[0-9a-z]{6,}$/i` (styled-components). -/
def dynPat5 : List Char → Bool
  | a :: b :: c :: '-' :: rest =>
      a.toLower = 'c' && b.toLower = 's' && c.toLower = 's' &&
        decide (rest.length ≥ 6) && rest.all fun ch => ch.isDigit || ch.isAlpha
  | _ => false

/-- `isDynamicClass` from `src/pf/score.ts` (lines 38–47): a class name looks
dynamically generated when any of the five patterns matches. -/
def isDynamicClass (className : String) : Bool :=
  dynPat1 className.data || dynPat2 className.data || dynPat3 className.data ||
    dynPat4 className.data || dynPat5 className.data

/-- `scoreUniqueness` from `src/pf/score.ts` (lines 51–64). -/
def scoreUniqueness (locator : ExtractedLocator) : Nat :=
  if locator.isUnique then 100
  else if locator.alternatives.any fun a =>
      a.isUnique && decide (STRATEGY_SCORES a.strategy ≥ 70) then 80
  else if locator.alternatives.any fun a => a.isUnique then 60
  else 20

/-- `scoreDepth` from `src/pf/score.ts` (lines 69–76). -/
def scoreDepth (depth : Nat) : Nat :=
  if depth ≤ 3 then 100
  else if depth ≤ 5 then 90
  else if depth ≤ 8 then 75
  else if depth ≤ 10 then 60
  else if depth ≤ 15 then 40
  else 20

/-- The dynamic-class penalty applied by `scoreStability` (lines 85–90):
`-10` per dynamic class, only when the primary strategy is `class`
(`classes` must be JS-truthy, i.e. present; an empty array is truthy). -/
def dynamicClassPenalty (locator : ExtractedLocator) : Int :=
  match locator.strategy, locator.classes with
  | .«class», some classes =>
      let dynamicCount := (classes.filter fun c => isDynamicClass c).length
      if dynamicCount > 0 then dynamicCount * 10 else 0
  | _, _ => 0

/-- The long-text penalty applied by `scoreStability` (lines 92–95):
only when the primary strategy is `text` and `text` is truthy. -/
def longTextPenalty (locator : ExtractedLocator) : Int :=
  match locator.strategy, locator.text with
  | .text, some t =>
      if t = "" then 0
      else if t.length > 50 then 20
      else if t.length > 30 then 10
      else 0
  | _, _ => 0

/-- The alternatives counted by the stability bonus (line 97–99): unique with
a base strategy score of at least 75. -/
def goodAltCount (locator : ExtractedLocator) : Nat :=
  (locator.alternatives.filter fun a =>
    a.isUnique && decide (STRATEGY_SCORES a.strategy ≥ 75)).length

/-- The three-tier bonus of `scoreStability` (lines 100–102). -/
def altTierBonus (n : Nat) : Int :=
  if n ≥ 3 then 15
  else if n = 2 then 10
  else if n = 1 then 5
  else 0

/-- The semantic-HTML bonus of `scoreStability` (lines 103–106):
`+5` when `role` or `ariaLabel` is truthy, regardless of strategy. -/
def semanticBonus (locator : ExtractedLocator) : Int :=
  if truthy locator.role || truthy locator.ariaLabel then 5 else 0

/-- `scoreStability` from `src/pf/score.ts` (lines 81–108): strategy base
score, minus the class/text penalties, plus the tier and semantic bonuses,
clamped to `[0, 100]` by `Math.max(0, Math.min(100, score))`. -/
def scoreStability (locator : ExtractedLocator) : Nat :=
  (max 0 (min 100 ((STRATEGY_SCORES locator.strategy : Int)
    - dynamicClassPenalty locator - longTextPenalty locator
    + altTierBonus (goodAltCount locator) + semanticBonus locator))).toNat

/-- `calculateTotalScore` from `src/pf/score.ts` (lines 112–125):
`Math.round(0.40·s + 0.30·u + 0.20·d + 0.10·st)`, expressed over `Nat`
(all arguments are in `[0,100]`, so the weighted sum is `(40s+30u+20d+10st)/100`
and JS `Math.round x = ⌊x + 1/2⌋`). -/
def calculateTotalScore (strategyScore uniquenessScore depthScore stabilityScore : Nat) : Nat :=
  (40 * strategyScore + 30 * uniquenessScore + 20 * depthScore +
    10 * stabilityScore + 50) / 100

/-- The letter grades. -/
inductive Grade where
  | A
  | B
  | C
  | D
  | F
deriving DecidableEq, Repr

/-- `assignGrade` from `src/pf/score.ts` (lines 129–135). -/
def assignGrade (score : Nat) : Grade :=
  if score ≥ 90 then .A
  else if score ≥ 80 then .B
  else if score ≥ 70 then .C
  else if score ≥ 60 then .D
  else .F

/-- The TS string literal of a strategy (strategies are string literals in TS). -/
def strategyLiteral : LocatorStrategy → String
  | .role => "role"
  | .label => "label"
  | .placeholder => "placeholder"
  | .aria_label => "aria_label"
  | .title => "title"
  | .name_attr => "name_attr"
  | .id_attr => "id_attr"
  | .autocomplete => "autocomplete"
  | .testId => "testId"
  | .text => "text"
  | .css => "css"
  | .xpath => "xpath"
  | .data_attr => "data_attr"
  | .«class» => "class"

/-- `strategy.replace(/_/g, " ")` as used in `generateReasoning` and
`suggestBetterAlternatives`. -/
def strategyDisplayName (s : LocatorStrategy) : String :=
  (strategyLiteral s).map fun c => if c = '_' then ' ' else c

/-- The per-component reasoning record returned by `generateReasoning`. -/
structure Reasoning where
  strategy : String
  uniqueness : String
  depth : String
  stability : String
deriving DecidableEq, Repr

/-- `generateReasoning` from `src/pf/score.ts` (lines 139–186). -/
def generateReasoning (locator : ExtractedLocator)
    (strategyS uniquenessS depthS stabilityS : Nat) : Reasoning :=
  { strategy :=
      "Using " ++ strategyDisplayName locator.strategy ++ " (score: " ++
        toString strategyS ++ "/100). " ++
        (if strategyS ≥ 90 then "Excellent choice - highly resistant to changes."
         else if strategyS ≥ 75 then "Good choice - reasonably stable."
         else if strategyS ≥ 60 then "Acceptable but could be better."
         else if strategyS ≥ 40 then "Risky - prone to breaking."
         else "Very risky - highly brittle.")
    uniqueness :=
      if locator.isUnique then
        "Unique on page (score: " ++ toString uniquenessS ++ "/100). No ambiguity."
      else if locator.alternatives.any fun a => a.isUnique then
        "Not unique, but has unique alternative (score: " ++ toString uniquenessS ++
          "/100). Consider switching."
      else
        "Not unique on page (score: " ++ toString uniquenessS ++
          "/100). Critical issue - will match multiple elements."
    depth :=
      "DOM depth: " ++ toString locator.depth ++ " levels (score: " ++
        toString depthS ++ "/100). " ++
        (if locator.depth ≤ 5 then "Shallow nesting - excellent."
         else if locator.depth ≤ 10 then "Moderate nesting - acceptable."
         else "Deep nesting - refactoring could break this.")
    stability :=
      "Stability analysis (score: " ++ toString stabilityS ++ "/100). " ++
        (if (locator.classes.getD []).any isDynamicClass then
          "Warning: Uses dynamically generated classes. " else "") ++
        (if truthy locator.text && decide ((locator.text.getD "").length > 30) then
          "Warning: Long text content may change. " else "") ++
        (if truthy locator.role || truthy locator.ariaLabel then
          "Bonus: Semantic HTML detected." else "") }

/-- `generateWarnings` from `src/pf/score.ts` (lines 190–214). -/
def generateWarnings (locator : ExtractedLocator) (totalScore : Nat) : List String :=
  (if !locator.isUnique && !(locator.alternatives.any fun a => a.isUnique) then
    ["CRITICAL: No unique locator available - will match multiple elements"] else []) ++
  (if locator.strategy = .xpath ∨ locator.strategy = .css then
    ["Brittle locator type - highly likely to break with DOM changes"] else []) ++
  (if locator.depth > 15 then
    ["Extremely deep nesting - very fragile"] else []) ++
  (if (locator.classes.getD []).any isDynamicClass then
    ["Dynamic classes detected: " ++
      String.intercalate ", " ((locator.classes.getD []).filter fun c => isDynamicClass c)]
   else []) ++
  (if locator.strategy = .text && truthy locator.text &&
      decide ((locator.text.getD "").length > 50) then
    ["Long text content - likely to change with copy updates"] else []) ++
  (if totalScore < 60 then
    ["Low overall score - find a better alternative"] else [])

/-- `suggestBetterAlternatives` from `src/pf/score.ts` (lines 218–232).
The JS `sort` (stable) is modelled by `mergeSort`. -/
def suggestBetterAlternatives (locator : ExtractedLocator) : Option (List String) :=
  let betterAlts :=
    (locator.alternatives.filter fun a =>
      a.isUnique && decide (STRATEGY_SCORES a.strategy > STRATEGY_SCORES locator.strategy)
      ).mergeSort fun a b => decide (STRATEGY_SCORES b.strategy ≤ STRATEGY_SCORES a.strategy)
  let suggestions :=
    (betterAlts.take 3).map fun alt =>
      "Use " ++ strategyDisplayName alt.strategy ++ ": \"" ++ alt.value ++
        "\" (score: " ++ toString (STRATEGY_SCORES alt.strategy) ++ "/100)"
  let suggestions :=
    suggestions ++
      (if !(locator.alternatives.any fun a => decide (a.strategy = .testId)) then
        ["Add data-testid attribute for maximum stability"] else [])
  if suggestions.length > 0 then some suggestions else none

/-- `LocatorScore` from `src/pf/types.ts`. -/
structure LocatorScore where
  locator : ExtractedLocator
  stabilityScore : Nat
  uniquenessScore : Nat
  depthScore : Nat
  strategyScore : Nat
  totalScore : Nat
  grade : Grade
  eloRating : Nat
  reasoning : Reasoning
  recommended : Bool
  warnings : List String
  betterAlternatives : Option (List String)
deriving DecidableEq, Repr

/-- `scoreLocator` from `src/pf/score.ts` (lines 236–272). -/
def scoreLocator (locator : ExtractedLocator) : LocatorScore :=
  let strategyScore := STRATEGY_SCORES locator.strategy
  let uniquenessScore := scoreUniqueness locator
  let depthScore := scoreDepth locator.depth
  let stabilityScore := scoreStability locator
  let totalScore :=
    calculateTotalScore strategyScore uniquenessScore depthScore stabilityScore
  { locator
    stabilityScore
    uniquenessScore
    depthScore
    strategyScore
    totalScore
    grade := assignGrade totalScore
    eloRating := INITIAL_ELO
    reasoning := generateReasoning locator strategyScore uniquenessScore depthScore stabilityScore
    recommended := totalScore ≥ 70
    warnings := generateWarnings locator totalScore
    betterAlternatives := suggestBetterAlternatives locator }

/-- The kernel of `text.replace(/\s+/g, " ")`: each maximal whitespace run
becomes a single space.  The flag records whether the previous character was
part of a whitespace run. -/
def collapseWsAux : Bool → List Char → List Char
  | _, [] => []
  | inRun, c :: cs =>
    if c.isWhitespace then
      if inRun then collapseWsAux true cs
      else ' ' :: collapseWsAux true cs
    else c :: collapseWsAux false cs

/-- `text.replace(/\s+/g, " ")` on a character list. -/
def collapseWs (s : List Char) : List Char :=
  collapseWsAux false s

/-- `safeText` from `src/pf/utils.ts` (lines 141–143):
`(text ?? "").replace(/\s+/g, " ").trim()`. -/
def safeText (text : Option String) : String :=
  (String.mk (collapseWs (text.getD "").data)).trim

/-- `median` from `src/pf/utils.ts` (lines 129–137).  The JS numeric sort
`sort((a, b) => a - b)` is modelled by `mergeSort` with `≤`. -/
def median (numbers : List ℚ) : ℚ :=
  if numbers.length = 0 then 0
  else
    let sorted := numbers.mergeSort fun a b => decide (a ≤ b)
    let mid := sorted.length / 2
    if sorted.length % 2 = 0 then (sorted.getD (mid - 1) 0 + sorted.getD mid 0) / 2
    else sorted.getD mid 0

/-- The per-element inputs of `extractLocatorsForElement`
(`src/pf/scan_locators.ts` lines 83–228): the attribute reads (a failed read
is `none`, like a `null` return) and the results of the live uniqueness count
probes.  `roleProbe`/`textProbe` are `none` when the probe itself threw
(the source catches those separately). -/
structure ElementInfo where
  tagName : String
  id : Option String
  name : Option String
  testId : Option String
  ariaLabel : Option String
  role : Option String
  title : Option String
  placeholder : Option String
  classAttr : Option String
  text : Option String
  xpath : String
  cssSelector : String
  depth : Nat
  siblingCount : Nat
  parentTag : String
  parentClasses : List String
  idCount : Nat
  testIdCount : Nat
  ariaLabelCount : Nat
  roleProbe : Option Nat
  nameCount : Nat
  titleCount : Nat
  placeholderCount : Nat
  textProbe : Option Nat
  classCount : Nat
deriving DecidableEq, Repr

/-- `classAttr ? classAttr.split(" ").filter(Boolean) : []`
(`scan_locators.ts` line 100). -/
def elementClasses (e : ElementInfo) : List String :=
  match e.classAttr with
  | some s => if s = "" then [] else (s.splitOn " ").filter fun c => c ≠ ""
  | none => []

/-- The candidate list built by `extractLocatorsForElement`
(`scan_locators.ts` lines 116–174), in source push order; the xpath fallback
is appended flagged unique by convention and the css fallback flagged
not unique. -/
def buildAlternatives (e : ElementInfo) : List Alternative :=
  (if truthy e.id then
    [⟨.id_attr, e.id.getD "", e.idCount == 1⟩] else []) ++
  (if truthy e.testId then
    [⟨.testId, e.testId.getD "", e.testIdCount == 1⟩] else []) ++
  (if truthy e.ariaLabel then
    [⟨.aria_label, e.ariaLabel.getD "", e.ariaLabelCount == 1⟩] else []) ++
  (if truthy e.role then
    [⟨.role, e.role.getD "",
      match e.roleProbe with | some c => c == 1 | none => false⟩] else []) ++
  (if truthy e.name then
    [⟨.name_attr, e.name.getD "", e.nameCount == 1⟩] else []) ++
  (if truthy e.title then
    [⟨.title, e.title.getD "", e.titleCount == 1⟩] else []) ++
  (if truthy e.placeholder then
    [⟨.placeholder, e.placeholder.getD "", e.placeholderCount == 1⟩] else []) ++
  (match e.text with
   | some t =>
       if 0 < t.trim.length ∧ t.trim.length < 50 then
         match e.textProbe with
         | some c => [⟨.text, safeText (some t), c == 1⟩]
         | none => []
       else []
   | none => []) ++
  (match elementClasses e with
   | firstClass :: _ => [⟨.«class», firstClass, e.classCount == 1⟩]
   | [] => []) ++
  [⟨.xpath, e.xpath, true⟩, ⟨.css, e.cssSelector, false⟩]

/-- The fixed primary-strategy precedence list (`scan_locators.ts`
lines 180–183). -/
def priorityList : List LocatorStrategy :=
  [.testId, .id_attr, .aria_label, .role, .name_attr, .text, .«class»]

/-- `alternatives.find(a => a.strategy === strat && a.isUnique)`
(`scan_locators.ts` line 186). -/
def findUniqueAlt (alts : List Alternative) (s : LocatorStrategy) : Option Alternative :=
  alts.find? fun a => decide (a.strategy = s) && a.isUnique

/-- The primary-selection loop (`scan_locators.ts` lines 185–193): try each
priority strategy in order, stopping at the first unique candidate. -/
def pickPrimary (ps : List LocatorStrategy) (alts : List Alternative) : Option Alternative :=
  match ps with
  | [] => none
  | s :: rest =>
    match findUniqueAlt alts s with
    | some a => some a
    | none => pickPrimary rest alts

/-- The element-type classification (`scan_locators.ts` lines 195–203). -/
def elementTypeOf (tagName : String) : String :=
  if tagName = "button" then "button"
  else if tagName = "a" then "link"
  else if tagName = "input" then "input"
  else if tagName = "select" then "select"
  else if tagName = "textarea" then "textarea"
  else if tagName ∈ ["h1", "h2", "h3", "h4", "h5", "h6"] then "heading"
  else if tagName = "form" then "form"
  else "other"

/-- The pure core of `extractLocatorsForElement` (`scan_locators.ts`
lines 83–228), taking the attribute reads and probe results as input.
`x || undefined` on the optional attribute fields is modelled with `truthy`. -/
def extractLocatorsForElement (e : ElementInfo) : ExtractedLocator :=
  let classes := elementClasses e
  let alternatives := buildAlternatives e
  let primary :=
    match pickPrimary priorityList alternatives with
    | some a => (a.strategy, a.value, a.isUnique)
    | none => (LocatorStrategy.xpath, e.xpath, true)
  { tagName := e.tagName
    elementType := elementTypeOf e.tagName
    strategy := primary.1
    value := primary.2.1
    alternatives
    xpath := e.xpath
    cssSelector := e.cssSelector
    depth := e.depth
    text := if truthy e.text then e.text else none
    ariaLabel := if truthy e.ariaLabel then e.ariaLabel else none
    role := if truthy e.role then e.role else none
    classes := if classes.length > 0 then some classes else none
    id := if truthy e.id then e.id else none
    name := if truthy e.name then e.name else none
    isUnique := primary.2.2
    siblingCount := e.siblingCount
    parentTag := if e.parentTag = "" then none else some e.parentTag
    parentClasses := if e.parentClasses.length > 0 then some e.parentClasses else none }

/-- JS `Math.round`: `⌊x + 1/2⌋` (half rounds up; all rounded values here
are non-negative). -/
def jsRound (q : ℚ) : ℤ := ⌊q + 1 / 2⌋

/-- JS `Number.prototype.toFixed(1)` for the non-negative averages used in
the improvement messages. -/
def toFixed1 (q : ℚ) : String :=
  let n := (⌊q * 10 + 1 / 2⌋).toNat
  toString (n / 10) ++ "." ++ toString (n % 10)

/-- The `issues` tallies of `PageLocatorScan` (`src/pf/types.ts`). -/
structure ScanIssues where
  duplicateIds : List String
  missingTestIds : Nat
  deeplyNested : Nat
  dynamicClasses : List String
  noStableLocator : Nat
deriving DecidableEq, Repr

/-- The `stats` of `PageLocatorScan` (`src/pf/types.ts`); the string-keyed
count records are association lists. -/
structure ScanStats where
  totalElements : Nat
  totalLocators : Nat
  uniqueLocators : Nat
  byStrategy : List (String × Nat)
  byElementType : List (String × Nat)
  averageDepth : ℚ
deriving DecidableEq, Repr

/-- `PageLocatorScan` from `src/pf/types.ts`. -/
structure PageLocatorScan where
  url : String
  scannedAt : String
  duration : Nat
  locators : List ExtractedLocator
  stats : ScanStats
  issues : ScanIssues
deriving DecidableEq, Repr

/-- The grade histogram of `scoreStats`. -/
structure GradeDistribution where
  A : Nat
  B : Nat
  C : Nat
  D : Nat
  F : Nat
deriving DecidableEq, Repr

/-- The `scoreStats` of `PageLocatorReport`. -/
structure ScoreStats where
  average : ℤ
  median : ℚ
  min : Nat
  max : Nat
  gradeDistribution : GradeDistribution
deriving DecidableEq, Repr

/-- The `recommendations` of `PageLocatorReport`. -/
structure Recommendations where
  topLocators : List LocatorScore
  riskyLocators : List LocatorScore
  criticalIssues : List String
  improvements : List String
deriving DecidableEq, Repr

/-- `PageLocatorReport` from `src/pf/types.ts`: the scan spread into the
report (`...scan`) plus the scored results, statistics and recommendations. -/
structure PageLocatorReport extends PageLocatorScan where
  scored : List LocatorScore
  scoreStats : ScoreStats
  recommendations : Recommendations
deriving DecidableEq, Repr

/-- The stable descending sort `[...scored].sort((a, b) => b.totalScore - a.totalScore)`
(`src/pf/score.ts` line 293). -/
def sortByScoreDesc (scored : List LocatorScore) : List LocatorScore :=
  scored.mergeSort fun a b => decide (b.totalScore ≤ a.totalScore)

/-- `scorePageScan` from `src/pf/score.ts` (lines 276–337). -/
def scorePageScan (scan : PageLocatorScan) : PageLocatorReport :=
  let scored := scan.locators.map scoreLocator
  let scores : List Nat := scored.map fun s => s.totalScore
  let average : ℚ :=
    if scores.length > 0 then (scores.sum : ℚ) / (scores.length : ℚ) else 0
  let medianScore := median (scores.map fun n => (n : ℚ))
  let minScore := match scores with | [] => 0 | x :: xs => xs.foldl Nat.min x
  let maxScore := match scores with | [] => 0 | x :: xs => xs.foldl Nat.max x
  let gradeDistribution : GradeDistribution :=
    { A := (scored.filter fun s => decide (s.grade = .A)).length
      B := (scored.filter fun s => decide (s.grade = .B)).length
      C := (scored.filter fun s => decide (s.grade = .C)).length
      D := (scored.filter fun s => decide (s.grade = .D)).length
      F := (scored.filter fun s => decide (s.grade = .F)).length }
  let sortedByScore := sortByScoreDesc scored
  let topLocators := sortedByScore.take 10
  let riskyLocators := (sortedByScore.drop (sortedByScore.length - 10)).reverse
  let lowScoreCount := (scored.filter fun s => decide (s.totalScore < 60)).length
  let criticalIssues :=
    (if scan.issues.duplicateIds.length > 0 then
      ["Duplicate IDs found: " ++ String.intercalate ", " scan.issues.duplicateIds]
     else []) ++
    (if scan.issues.noStableLocator > 0 then
      [toString scan.issues.noStableLocator ++ " elements have no stable locator"]
     else []) ++
    (if lowScoreCount > 0 then
      [toString lowScoreCount ++ " locators have failing grades (D/F)"]
     else [])
  let improvements :=
    (if scan.issues.missingTestIds > 0 then
      ["Add data-testid to " ++ toString scan.issues.missingTestIds ++
        " elements for better stability"]
     else []) ++
    (if scan.issues.dynamicClasses.length > 0 then
      ["Avoid dynamic classes like: " ++
        String.intercalate ", " (scan.issues.dynamicClasses.take 3)]
     else []) ++
    (if scan.stats.averageDepth > 10 then
      ["Reduce DOM nesting - average depth is " ++
        toFixed1 scan.stats.averageDepth ++ " levels"]
     else [])
  { toPageLocatorScan := scan
    scored
    scoreStats :=
      { average := jsRound average
        median := medianScore
        min := minScore
        max := maxScore
        gradeDistribution }
    recommendations :=
      { topLocators
        riskyLocators
        criticalIssues
        improvements } }

/-! ## Shared lemmas -/

theorem STRATEGY_SCORES_le_100 (s : LocatorStrategy) : STRATEGY_SCORES s ≤ 100 := by
  cases s <;> decide

theorem scoreUniqueness_le_100 (L : ExtractedLocator) : scoreUniqueness L ≤ 100 := by
  unfold scoreUniqueness
  split_ifs <;> omega

theorem scoreDepth_le_100 (d : Nat) : scoreDepth d ≤ 100 := by
  unfold scoreDepth
  split_ifs <;> omega

theorem clamp_toNat_le_100 (x : ℤ) : (max 0 (min 100 x)).toNat ≤ 100 := by
  have h1 : max 0 (min 100 x) ≤ (100 : ℤ) := max_le (by norm_num) (min_le_left _ _)
  calc (max 0 (min 100 x)).toNat ≤ (100 : ℤ).toNat := Int.toNat_le_toNat h1
    _ = 100 := rfl

theorem scoreStability_le_100 (L : ExtractedLocator) : scoreStability L ≤ 100 :=
  clamp_toNat_le_100 _

theorem floor_cast_div_100 (n : ℕ) : ⌊((n : ℚ)) / 100⌋ = ((n / 100 : ℕ) : ℤ) := by
  have h := Nat.floor_div_nat ((n : ℚ)) 100
  rw [Nat.floor_natCast] at h
  have h2 : ((100 : ℕ) : ℚ) = (100 : ℚ) := by norm_num
  rw [h2] at h
  rw [← Int.natCast_floor_eq_floor (by positivity), h]

theorem calcTotal_eq_jsRound (s u d st : Nat) :
    ((calculateTotalScore s u d st : ℕ) : ℤ) =
      jsRound ((0.40 : ℚ) * s + 0.30 * u + 0.20 * d + 0.10 * st) := by
  unfold calculateTotalScore jsRound
  have key : (0.40 : ℚ) * s + 0.30 * u + 0.20 * d + 0.10 * st + 1 / 2
      = ((40 * s + 30 * u + 20 * d + 10 * st + 50 : ℕ) : ℚ) / 100 := by
    push_cast
    norm_num
    ring
  rw [key, floor_cast_div_100]

theorem calculateTotalScore_le_100 {s u d st : Nat}
    (hs : s ≤ 100) (hu : u ≤ 100) (hd : d ≤ 100) (hst : st ≤ 100) :
    calculateTotalScore s u d st ≤ 100 := by
  unfold calculateTotalScore
  calc (40 * s + 30 * u + 20 * d + 10 * st + 50) / 100 ≤ 10050 / 100 :=
        Nat.div_le_div_right (by omega)
    _ = 100 := by norm_num

/-! ## C1: total score is the rounded weighted sum, in `[0, 100]` -/

/-- C1: for every `ExtractedLocator`, the total score equals
`round(0.40·strategyScore + 0.30·uniquenessScore + 0.20·depthScore +
0.10·stabilityScore)` and lies in `[0, 100]`. -/
theorem totalScore_weighted_round_in_range (L : ExtractedLocator) :
    (((scoreLocator L).totalScore : ℕ) : ℤ) =
      jsRound ((0.40 : ℚ) * (scoreLocator L).strategyScore
        + 0.30 * (scoreLocator L).uniquenessScore
        + 0.20 * (scoreLocator L).depthScore
        + 0.10 * (scoreLocator L).stabilityScore) ∧
    0 ≤ (scoreLocator L).totalScore ∧ (scoreLocator L).totalScore ≤ 100 := by
  refine ⟨calcTotal_eq_jsRound _ _ _ _, Nat.zero_le _, ?_⟩
  exact calculateTotalScore_le_100 (STRATEGY_SCORES_le_100 L.strategy)
    (scoreUniqueness_le_100 L) (scoreDepth_le_100 L.depth) (scoreStability_le_100 L)

/-! ## C2: grades at the documented thresholds, `recommended` at 70 -/

theorem assignGrade_spec (t : Nat) :
    (assignGrade t = .A ↔ 90 ≤ t) ∧
    (assignGrade t = .B ↔ 80 ≤ t ∧ t < 90) ∧
    (assignGrade t = .C ↔ 70 ≤ t ∧ t < 80) ∧
    (assignGrade t = .D ↔ 60 ≤ t ∧ t < 70) ∧
    (assignGrade t = .F ↔ t < 60) := by
  unfold assignGrade
  split_ifs <;> simp_all <;> omega

/-- C2: for every `ExtractedLocator` the grade is exactly A for
`totalScore ≥ 90`, B on `[80, 90)`, C on `[70, 80)`, D on `[60, 70)` and F
below 60 — exact at the boundary pairs 59/60, 69/70, 79/80, 89/90 — and
`recommended` holds exactly when `totalScore ≥ 70`. -/
theorem grade_thresholds_and_recommended (L : ExtractedLocator) :
    ((scoreLocator L).grade = .A ↔ 90 ≤ (scoreLocator L).totalScore) ∧
    ((scoreLocator L).grade = .B ↔
      80 ≤ (scoreLocator L).totalScore ∧ (scoreLocator L).totalScore < 90) ∧
    ((scoreLocator L).grade = .C ↔
      70 ≤ (scoreLocator L).totalScore ∧ (scoreLocator L).totalScore < 80) ∧
    ((scoreLocator L).grade = .D ↔
      60 ≤ (scoreLocator L).totalScore ∧ (scoreLocator L).totalScore < 70) ∧
    ((scoreLocator L).grade = .F ↔ (scoreLocator L).totalScore < 60) ∧
    ((scoreLocator L).recommended = true ↔ 70 ≤ (scoreLocator L).totalScore) ∧
    assignGrade 59 = .F ∧ assignGrade 60 = .D ∧ assignGrade 69 = .D ∧
    assignGrade 70 = .C ∧ assignGrade 79 = .C ∧ assignGrade 80 = .B ∧
    assignGrade 89 = .B ∧ assignGrade 90 = .A := by
  obtain ⟨hA, hB, hC, hD, hF⟩ := assignGrade_spec (scoreLocator L).totalScore
  refine ⟨hA, hB, hC, hD, hF, ?_, by decide, by decide, by decide, by decide,
    by decide, by decide, by decide, by decide⟩
  show decide (70 ≤ (scoreLocator L).totalScore) = true ↔ _
  simp [decide_eq_true_iff]

/-! ## C3: the uniqueness sub-score tiers -/

/-- C3: the uniqueness sub-score is 100 when the primary is unique; else 80
when some alternative is unique with a base strategy score of at least 70;
else 60 when any alternative at all is unique; else 20. -/
theorem uniqueness_subscore_cases (L : ExtractedLocator) :
    (L.isUnique = true → scoreUniqueness L = 100) ∧
    (L.isUnique = false →
      (∃ a ∈ L.alternatives, a.isUnique = true ∧ 70 ≤ STRATEGY_SCORES a.strategy) →
      scoreUniqueness L = 80) ∧
    (L.isUnique = false →
      (¬∃ a ∈ L.alternatives, a.isUnique = true ∧ 70 ≤ STRATEGY_SCORES a.strategy) →
      (∃ a ∈ L.alternatives, a.isUnique = true) →
      scoreUniqueness L = 60) ∧
    (L.isUnique = false →
      (¬∃ a ∈ L.alternatives, a.isUnique = true) →
      scoreUniqueness L = 20) := by
  refine ⟨fun h => by simp [scoreUniqueness, h], fun h hex => ?_, fun h hnex hex => ?_,
    fun h hnex => ?_⟩
  · have h70 : (L.alternatives.any fun a =>
        a.isUnique && decide (STRATEGY_SCORES a.strategy ≥ 70)) = true := by
      rw [List.any_eq_true]
      obtain ⟨a, ha, hu, hs⟩ := hex
      exact ⟨a, ha, by simp [hu, hs]⟩
    simp [scoreUniqueness, h, h70]
  · have h70 : (L.alternatives.any fun a =>
        a.isUnique && decide (STRATEGY_SCORES a.strategy ≥ 70)) = false := by
      rw [List.any_eq_false]
      intro a ha
      simp only [Bool.and_eq_true, decide_eq_true_iff, not_and]
      intro hu hs
      exact hnex ⟨a, ha, hu, hs⟩
    have hany : (L.alternatives.any fun a => a.isUnique) = true := by
      rw [List.any_eq_true]
      obtain ⟨a, ha, hu⟩ := hex
      exact ⟨a, ha, hu⟩
    simp [scoreUniqueness, h, h70, hany]
  · have hany : (L.alternatives.any fun a => a.isUnique) = false := by
      rw [List.any_eq_false]
      intro a ha
      simp only [Bool.not_eq_true]
      by_contra hu
      exact hnex ⟨a, ha, by simpa using hu⟩
    have h70 : (L.alternatives.any fun a =>
        a.isUnique && decide (STRATEGY_SCORES a.strategy ≥ 70)) = false := by
      rw [List.any_eq_false]
      intro a ha
      have := List.any_eq_false.mp hany a ha
      simp_all
    simp [scoreUniqueness, h, h70, hany]

/-- A concrete non-unique locator whose `id_attr` alternative is unique
(used to witness theorems with hypotheses). -/
def demoClassLocator : ExtractedLocator :=
  { tagName := "button"
    elementType := "button"
    strategy := .«class»
    value := "btn"
    alternatives := [⟨.id_attr, "save", true⟩, ⟨.«class», "btn", false⟩]
    xpath := "/html/body/button[1]"
    cssSelector := "button.btn"
    depth := 4
    text := none
    ariaLabel := none
    role := none
    classes := some ["btn"]
    id := some "save"
    name := none
    isUnique := false
    siblingCount := 0
    parentTag := none
    parentClasses := none }

theorem uniqueness_subscore_cases_witness :
    demoClassLocator.isUnique = false ∧ scoreUniqueness demoClassLocator = 80 :=
  ⟨rfl, (uniqueness_subscore_cases demoClassLocator).2.1 rfl
    ⟨⟨.id_attr, "save", true⟩, by decide, rfl, by decide⟩⟩

theorem grade_thresholds_and_recommended_witness :
    (scoreLocator demoClassLocator).totalScore = 63 ∧
    (scoreLocator demoClassLocator).grade = .D :=
  ⟨by decide, (grade_thresholds_and_recommended demoClassLocator).2.2.2.1.mpr
    ⟨by decide, by decide⟩⟩

/-! ## C4: the xpath-only scenario -/

/-- The scenario element: addressable only via xpath (xpath alternative
unique by convention, css alternative not unique), depth 18, no other
attributes. -/
def xpathOnlyElement : ElementInfo :=
  { tagName := "span"
    id := none
    name := none
    testId := none
    ariaLabel := none
    role := none
    title := none
    placeholder := none
    classAttr := none
    text := none
    xpath := "/html/body/div[3]/span[2]"
    cssSelector := "span:nth-of-type(2)"
    depth := 18
    siblingCount := 3
    parentTag := "div"
    parentClasses := []
    idCount := 0
    testIdCount := 0
    ariaLabelCount := 0
    roleProbe := none
    nameCount := 0
    titleCount := 0
    placeholderCount := 0
    textProbe := none
    classCount := 0 }

/-- C4: scoring the xpath-only element at depth 18 yields
strategy 20, uniqueness 100, depth 20, stability 20,
total `round(0.4·20 + 0.3·100 + 0.2·20 + 0.1·20) = 44`, grade F,
not recommended. -/
theorem xpath_only_scenario_scores :
    (extractLocatorsForElement xpathOnlyElement).strategy = .xpath ∧
    (extractLocatorsForElement xpathOnlyElement).isUnique = true ∧
    (extractLocatorsForElement xpathOnlyElement).depth = 18 ∧
    (scoreLocator (extractLocatorsForElement xpathOnlyElement)).strategyScore = 20 ∧
    (scoreLocator (extractLocatorsForElement xpathOnlyElement)).uniquenessScore = 100 ∧
    (scoreLocator (extractLocatorsForElement xpathOnlyElement)).depthScore = 20 ∧
    (scoreLocator (extractLocatorsForElement xpathOnlyElement)).stabilityScore = 20 ∧
    (scoreLocator (extractLocatorsForElement xpathOnlyElement)).totalScore = 44 ∧
    calculateTotalScore 20 100 20 20 = 44 ∧
    (scoreLocator (extractLocatorsForElement xpathOnlyElement)).grade = .F ∧
    (scoreLocator (extractLocatorsForElement xpathOnlyElement)).recommended = false := by
  decide

/-! ## C5: the stability sub-score structure -/

theorem dynamicClassPenalty_eq_zero {L : ExtractedLocator}
    (h : L.strategy ≠ .«class») : dynamicClassPenalty L = 0 := by
  cases hL : L.strategy <;> cases hC : L.classes <;> simp_all [dynamicClassPenalty]

theorem longTextPenalty_eq_zero {L : ExtractedLocator}
    (h : L.strategy ≠ .text) : longTextPenalty L = 0 := by
  cases hL : L.strategy <;> cases hC : L.text <;> simp_all [longTextPenalty]

theorem altTierBonus_mono {n m : Nat} (h : n ≤ m) : altTierBonus n ≤ altTierBonus m := by
  unfold altTierBonus
  split_ifs <;> omega

theorem scoreStability_mono_goodAlt {L L' : ExtractedLocator}
    (h1 : L'.strategy = L.strategy) (h2 : L'.classes = L.classes)
    (h3 : L'.text = L.text) (h4 : L'.role = L.role) (h5 : L'.ariaLabel = L.ariaLabel)
    (h6 : goodAltCount L ≤ goodAltCount L') :
    scoreStability L ≤ scoreStability L' := by
  have hd : dynamicClassPenalty L' = dynamicClassPenalty L := by
    unfold dynamicClassPenalty
    rw [h1, h2]
  have ht : longTextPenalty L' = longTextPenalty L := by
    unfold longTextPenalty
    rw [h1, h3]
  have hsem : semanticBonus L' = semanticBonus L := by
    unfold semanticBonus
    rw [h4, h5]
  have hb := altTierBonus_mono h6
  unfold scoreStability
  rw [h1, hd, ht, hsem]
  exact Int.toNat_le_toNat (max_le_max le_rfl (min_le_min le_rfl (by omega)))

/-- C5: the stability sub-score starts from the primary strategy's base
table score (exactly, when the class/text penalties do not apply), adds the
three-tier bonus for unique high-quality alternatives (never decreasing as
such alternatives are added), adds the flat semantic bonus, and is clamped
to `[0, 100]`. -/
theorem stability_subscore_structure (L : ExtractedLocator) (a : Alternative) :
    (0 ≤ scoreStability L ∧ scoreStability L ≤ 100) ∧
    (L.strategy ≠ .«class» → L.strategy ≠ .text →
      scoreStability L =
        (max 0 (min 100 ((STRATEGY_SCORES L.strategy : Int) +
          altTierBonus (goodAltCount L) + semanticBonus L))).toNat) ∧
    (∀ n m : Nat, n ≤ m → altTierBonus n ≤ altTierBonus m) ∧
    (a.isUnique = true → 75 ≤ STRATEGY_SCORES a.strategy →
      scoreStability L ≤
        scoreStability { L with alternatives := a :: L.alternatives }) := by
  refine ⟨⟨Nat.zero_le _, scoreStability_le_100 L⟩, fun h1 h2 => ?_,
    fun n m h => altTierBonus_mono h, fun hu h75 => ?_⟩
  · unfold scoreStability
    rw [dynamicClassPenalty_eq_zero h1, longTextPenalty_eq_zero h2]
    ring_nf
  · have hp : (a.isUnique && decide (STRATEGY_SCORES a.strategy ≥ 75)) = true := by
      simp [hu, h75]
    have hg : goodAltCount { L with alternatives := a :: L.alternatives } =
        goodAltCount L + 1 := by
      simp [goodAltCount, List.filter_cons, hp]
    exact scoreStability_mono_goodAlt rfl rfl rfl rfl rfl (by omega)

theorem stability_subscore_structure_witness :
    scoreStability demoClassLocator ≤ scoreStability
      { demoClassLocator with
          alternatives := ⟨.testId, "x", true⟩ :: demoClassLocator.alternatives } ∧
    scoreStability demoClassLocator = 45 :=
  ⟨(stability_subscore_structure demoClassLocator ⟨.testId, "x", true⟩).2.2.2
      rfl (by decide),
   by decide⟩

/-! ## C6: the depth sub-score bands -/

/-- C6: the depth sub-score is a step function with band boundaries at
depths 3, 5, 8, 10 and 15, from 100 down to 20, and deeper never scores
higher. -/
theorem depth_subscore_bands_antitone :
    scoreDepth 0 = 100 ∧ scoreDepth 3 = 100 ∧ scoreDepth 4 = 90 ∧ scoreDepth 5 = 90 ∧
    scoreDepth 6 = 75 ∧ scoreDepth 8 = 75 ∧ scoreDepth 9 = 60 ∧ scoreDepth 10 = 60 ∧
    scoreDepth 11 = 40 ∧ scoreDepth 15 = 40 ∧ scoreDepth 16 = 20 ∧
    ∀ d1 d2 : Nat, d1 ≤ d2 → scoreDepth d2 ≤ scoreDepth d1 := by
  refine ⟨by decide, by decide, by decide, by decide, by decide, by decide, by decide,
    by decide, by decide, by decide, by decide, fun d1 d2 h => ?_⟩
  unfold scoreDepth
  split_ifs <;> omega

theorem depth_subscore_bands_antitone_witness :
    3 ≤ 18 ∧ scoreDepth 18 ≤ scoreDepth 3 :=
  ⟨by decide, depth_subscore_bands_antitone.2.2.2.2.2.2.2.2.2.2.2 3 18 (by decide)⟩

/-! ## C7 and C9: the extractor's primary selection -/

theorem mem_of_pickPrimary {ps : List LocatorStrategy} {alts : List Alternative}
    {a : Alternative} (h : pickPrimary ps alts = some a) : a ∈ alts := by
  induction ps with
  | nil => simp [pickPrimary] at h
  | cons s rest ih =>
    unfold pickPrimary at h
    cases hf : findUniqueAlt alts s with
    | some b =>
      rw [hf] at h
      cases h
      exact List.mem_of_find?_eq_some hf
    | none =>
      rw [hf] at h
      exact ih h

theorem isUnique_of_pickPrimary {ps : List LocatorStrategy} {alts : List Alternative}
    {a : Alternative} (h : pickPrimary ps alts = some a) : a.isUnique = true := by
  induction ps with
  | nil => simp [pickPrimary] at h
  | cons s rest ih =>
    unfold pickPrimary at h
    cases hf : findUniqueAlt alts s with
    | some b =>
      rw [hf] at h
      cases h
      have hp := List.find?_some hf
      simp at hp
      exact hp.2
    | none =>
      rw [hf] at h
      exact ih h

theorem pickPrimary_eq_none {ps : List LocatorStrategy} {alts : List Alternative}
    (h : ∀ s ∈ ps, findUniqueAlt alts s = none) : pickPrimary ps alts = none := by
  induction ps with
  | nil => rfl
  | cons s rest ih =>
    unfold pickPrimary
    rw [h s (by simp)]
    exact ih fun s hs => h s (by simp [hs])

theorem pickPrimary_first {alts : List Alternative} :
    ∀ (ps : List LocatorStrategy) (i : Nat) (h : i < ps.length) (a : Alternative),
      (∀ j (hj : j < i), findUniqueAlt alts (ps.get ⟨j, Nat.lt_trans hj h⟩) = none) →
      findUniqueAlt alts (ps.get ⟨i, h⟩) = some a →
      pickPrimary ps alts = some a
  | [], i, h, a, _, _ => absurd h (by simp)
  | s :: rest, 0, h, a, _, hfind => by
    unfold pickPrimary
    rw [show findUniqueAlt alts s = some a from hfind]
  | s :: rest, i + 1, h, a, hearlier, hfind => by
    have h0 : findUniqueAlt alts s = none := hearlier 0 (Nat.succ_pos i)
    unfold pickPrimary
    rw [h0]
    exact pickPrimary_first rest i (Nat.lt_of_succ_lt_succ h) a
      (fun j hj => hearlier (j + 1) (Nat.succ_lt_succ hj)) hfind

theorem xpathAlt_mem (e : ElementInfo) :
    (⟨.xpath, e.xpath, true⟩ : Alternative) ∈ buildAlternatives e := by
  unfold buildAlternatives
  simp

theorem cssAlt_mem (e : ElementInfo) :
    (⟨.css, e.cssSelector, false⟩ : Alternative) ∈ buildAlternatives e := by
  unfold buildAlternatives
  simp

/-- C7: the primary strategy/value of an extracted locator is chosen by the
fixed precedence list (testId, id, aria-label, role, name, text, class),
taking the first unique candidate; with no unique candidate in that list the
primary defaults to the xpath fallback; the alternatives list is never empty
(xpath and css entries always appended) and the primary always equals some
entry of it. -/
theorem primary_selection_precedence (e : ElementInfo) :
    (extractLocatorsForElement e).alternatives ≠ [] ∧
    (⟨.xpath, e.xpath, true⟩ : Alternative) ∈ (extractLocatorsForElement e).alternatives ∧
    (⟨.css, e.cssSelector, false⟩ : Alternative) ∈ (extractLocatorsForElement e).alternatives ∧
    (∃ a ∈ (extractLocatorsForElement e).alternatives,
      a.strategy = (extractLocatorsForElement e).strategy ∧
      a.value = (extractLocatorsForElement e).value) ∧
    ((∀ a ∈ (extractLocatorsForElement e).alternatives,
        a.strategy ∈ priorityList → a.isUnique = false) →
      (extractLocatorsForElement e).strategy = .xpath ∧
      (extractLocatorsForElement e).value = e.xpath) ∧
    (∀ i (h : i < priorityList.length) a,
      (∀ j (hj : j < i),
        findUniqueAlt (extractLocatorsForElement e).alternatives
          (priorityList.get ⟨j, Nat.lt_trans hj h⟩) = none) →
      findUniqueAlt (extractLocatorsForElement e).alternatives
        (priorityList.get ⟨i, h⟩) = some a →
      (extractLocatorsForElement e).strategy = a.strategy ∧
      (extractLocatorsForElement e).value = a.value) := by
  refine ⟨List.ne_nil_of_mem (xpathAlt_mem e), xpathAlt_mem e, cssAlt_mem e, ?_, ?_, ?_⟩
  · cases hp : pickPrimary priorityList (buildAlternatives e) with
    | none =>
      exact ⟨⟨.xpath, e.xpath, true⟩, xpathAlt_mem e,
        by simp [extractLocatorsForElement, hp], by simp [extractLocatorsForElement, hp]⟩
    | some a =>
      exact ⟨a, mem_of_pickPrimary hp,
        by simp [extractLocatorsForElement, hp], by simp [extractLocatorsForElement, hp]⟩
  · intro hall
    have hnone : pickPrimary priorityList (buildAlternatives e) = none := by
      apply pickPrimary_eq_none
      intro s hs
      rw [findUniqueAlt, List.find?_eq_none]
      intro a ha
      simp only [Bool.and_eq_true, decide_eq_true_iff, not_and]
      intro hstrat
      rw [hall a ha (hstrat ▸ hs)]
      simp
    exact ⟨by simp [extractLocatorsForElement, hnone], by simp [extractLocatorsForElement, hnone]⟩
  · intro i h a hearlier hfind
    have hp : pickPrimary priorityList (buildAlternatives e) = some a :=
      pickPrimary_first priorityList i h a hearlier hfind
    exact ⟨by simp [extractLocatorsForElement, hp], by simp [extractLocatorsForElement, hp]⟩

/-- The element used to witness the precedence selection: unique `testId`
and `id` candidates, of which `testId` must win. -/
def testIdElement : ElementInfo :=
  { tagName := "button"
    id := some "save-btn"
    name := none
    testId := some "submit"
    ariaLabel := none
    role := none
    title := none
    placeholder := none
    classAttr := some "css-a1b2c3"
    text := some "Submit"
    xpath := "/html/body/button[1]"
    cssSelector := "button.css-a1b2c3"
    depth := 4
    siblingCount := 1
    parentTag := "body"
    parentClasses := []
    idCount := 1
    testIdCount := 1
    ariaLabelCount := 0
    roleProbe := none
    nameCount := 0
    titleCount := 0
    placeholderCount := 0
    textProbe := some 1
    classCount := 3 }

theorem primary_selection_precedence_witness :
    (extractLocatorsForElement testIdElement).strategy = .testId ∧
    (extractLocatorsForElement testIdElement).value = "submit" :=
  (primary_selection_precedence testIdElement).2.2.2.2.2 0 (by decide)
    ⟨.testId, "submit", true⟩
    (fun j hj => absurd hj (Nat.not_lt_zero j))
    (by decide)

theorem eq_of_mem_ite_singleton {α : Type} {c : Prop} [Decidable c] {x s : α}
    (h : x ∈ (if c then [s] else [])) : x = s := by
  split at h
  · simpa using h
  · simp at h

theorem critical_ne_dynamic (s : String) :
    "CRITICAL: No unique locator available - will match multiple elements" ≠
      "Dynamic classes detected: " ++ s := by
  intro h
  have h2 := congrArg String.data h
  rw [String.data_append] at h2
  have h3 := congrArg List.head? h2
  simp at h3

theorem critical_not_mem_of_unique {L : ExtractedLocator} (hu : L.isUnique = true)
    (t : Nat) :
    "CRITICAL: No unique locator available - will match multiple elements" ∉
      generateWarnings L t := by
  intro hmem
  unfold generateWarnings at hmem
  rw [hu] at hmem
  rcases List.mem_append.mp hmem with h | h2
  · simp at h
    exact absurd h.2 (critical_ne_dynamic _)
  · exact absurd (eq_of_mem_ite_singleton h2) (by decide)

/-- C9: every locator built by the extractor has `isUnique = true` (the
xpath fallback is the default primary and the precedence loop only selects
unique candidates), contains a unique alternative, receives uniqueness
sub-score 100, and the CRITICAL no-unique-locator warning can never fire for
extractor output. -/
theorem extractor_unique_no_critical (e : ElementInfo) (t : Nat) :
    (extractLocatorsForElement e).isUnique = true ∧
    (∃ a ∈ (extractLocatorsForElement e).alternatives, a.isUnique = true) ∧
    scoreUniqueness (extractLocatorsForElement e) = 100 ∧
    "CRITICAL: No unique locator available - will match multiple elements" ∉
      generateWarnings (extractLocatorsForElement e) t := by
  have hu : (extractLocatorsForElement e).isUnique = true := by
    cases hp : pickPrimary priorityList (buildAlternatives e) with
    | none => simp [extractLocatorsForElement, hp]
    | some a =>
      have ha := isUnique_of_pickPrimary hp
      simp [extractLocatorsForElement, hp, ha]
  exact ⟨hu, ⟨⟨.xpath, e.xpath, true⟩, xpathAlt_mem e, rfl⟩,
    by simp [scoreUniqueness, hu], critical_not_mem_of_unique hu t⟩

theorem extractor_unique_no_critical_witness :
    (extractLocatorsForElement testIdElement).isUnique = true ∧
    scoreUniqueness (extractLocatorsForElement testIdElement) = 100 :=
  ⟨(extractor_unique_no_critical testIdElement 50).1,
   (extractor_unique_no_critical testIdElement 50).2.2.1⟩

/-! ## C8: page-level score statistics -/

/-- The totalScores of all scored locators of a page. -/
def pageTotalScores (scan : PageLocatorScan) : List Nat :=
  (scorePageScan scan).scored.map fun s => s.totalScore

theorem gradeFilter_sum (l : List LocatorScore) :
    (l.filter fun s => decide (s.grade = .A)).length +
    (l.filter fun s => decide (s.grade = .B)).length +
    (l.filter fun s => decide (s.grade = .C)).length +
    (l.filter fun s => decide (s.grade = .D)).length +
    (l.filter fun s => decide (s.grade = .F)).length = l.length := by
  induction l with
  | nil => rfl
  | cons h t ih =>
    rcases hg : h.grade <;> simp [List.filter, hg] <;> omega

theorem sortedQ_sorted (l : List ℚ) :
    (l.mergeSort fun a b => decide (a ≤ b)).Sorted (· ≤ ·) := by
  have h := @List.sorted_mergeSort ℚ (fun a b : ℚ => decide (a ≤ b))
    (fun a b c hab hbc => by
      simp only [decide_eq_true_iff] at *
      exact le_trans hab hbc)
    (fun a b => by
      simp only [Bool.or_eq_true, decide_eq_true_iff]
      exact le_total a b)
    l
  exact h.imp fun hab => by simpa using hab

/-- C8: the grade histogram's five counts sum to the number of scored
locators; the reported average is `round(mean totalScore)`; the reported
median is the middle element of the sorted totalScores for an odd count and
the mean of the two middle elements for an even count. -/
theorem page_stats_histogram_average_median (scan : PageLocatorScan) :
    ((scorePageScan scan).scoreStats.gradeDistribution.A +
     (scorePageScan scan).scoreStats.gradeDistribution.B +
     (scorePageScan scan).scoreStats.gradeDistribution.C +
     (scorePageScan scan).scoreStats.gradeDistribution.D +
     (scorePageScan scan).scoreStats.gradeDistribution.F =
       (scorePageScan scan).scored.length) ∧
    (0 < (pageTotalScores scan).length →
      (scorePageScan scan).scoreStats.average =
        jsRound (((pageTotalScores scan).sum : ℚ) / ((pageTotalScores scan).length : ℚ))) ∧
    (∃ sorted : List ℚ,
      sorted.Perm ((pageTotalScores scan).map fun n => (n : ℚ)) ∧
      sorted.Sorted (· ≤ ·) ∧
      (sorted.length % 2 = 1 →
        (scorePageScan scan).scoreStats.median = sorted.getD (sorted.length / 2) 0) ∧
      (sorted.length % 2 = 0 → 0 < sorted.length →
        (scorePageScan scan).scoreStats.median =
          (sorted.getD (sorted.length / 2 - 1) 0 +
           sorted.getD (sorted.length / 2) 0) / 2)) := by
  have hmed : (scorePageScan scan).scoreStats.median =
      median ((pageTotalScores scan).map fun n => (n : ℚ)) := by
    unfold pageTotalScores scorePageScan
    rfl
  have havg : (scorePageScan scan).scoreStats.average =
      jsRound (if (pageTotalScores scan).length > 0 then
        ((pageTotalScores scan).sum : ℚ) / ((pageTotalScores scan).length : ℚ) else 0) := by
    unfold pageTotalScores scorePageScan
    rfl
  refine ⟨gradeFilter_sum _, ?_, ?_⟩
  · intro h
    rw [havg, if_pos h]
  · refine ⟨((pageTotalScores scan).map fun n => (n : ℚ)).mergeSort
        fun a b => decide (a ≤ b),
      List.mergeSort_perm _ _, sortedQ_sorted _, ?_, ?_⟩
    · intro hodd
      rw [List.length_mergeSort] at hodd
      rw [hmed]
      simp only [median]
      rw [if_neg (by omega), if_neg (by rw [List.length_mergeSort]; omega)]
    · intro heven hpos
      rw [List.length_mergeSort] at heven hpos
      rw [hmed]
      simp only [median]
      rw [if_neg (by omega), if_pos (by rw [List.length_mergeSort]; omega)]

/-- A one-locator page scan used as a witness input. -/
def singletonScan : PageLocatorScan :=
  { url := "https://example.com"
    scannedAt := "2025-01-01T00:00:00.000Z"
    duration := 120
    locators := [demoClassLocator]
    stats :=
      { totalElements := 1
        totalLocators := 1
        uniqueLocators := 0
        byStrategy := [("class", 1)]
        byElementType := [("button", 1)]
        averageDepth := 4 }
    issues :=
      { duplicateIds := []
        missingTestIds := 1
        deeplyNested := 0
        dynamicClasses := []
        noStableLocator := 0 } }

theorem page_stats_histogram_average_median_witness :
    0 < (pageTotalScores singletonScan).length ∧
    (scorePageScan singletonScan).scoreStats.average =
      jsRound (((pageTotalScores singletonScan).sum : ℚ) /
        ((pageTotalScores singletonScan).length : ℚ)) :=
  ⟨by decide, (page_stats_histogram_average_median singletonScan).2.1 (by decide)⟩

/-! ## C10: top and risky locators from one common sort -/

/-- The empty page scan. -/
def emptyScan : PageLocatorScan :=
  { url := "https://example.com/empty"
    scannedAt := "2025-01-01T00:00:00.000Z"
    duration := 10
    locators := []
    stats :=
      { totalElements := 0
        totalLocators := 0
        uniqueLocators := 0
        byStrategy := []
        byElementType := []
        averageDepth := 0 }
    issues :=
      { duplicateIds := []
        missingTestIds := 0
        deeplyNested := 0
        dynamicClasses := []
        noStableLocator := 0 } }

/-- C10 counterexample: a page with zero scored locators has fewer than 20
scored locators, yet its top and risky lists (both empty) share no
element — so "fewer than 20 implies the lists share elements" fails as
stated. -/
theorem top_risky_overlap_counterexample :
    (scorePageScan emptyScan).scored.length < 20 ∧
    (scorePageScan emptyScan).recommendations.topLocators = [] ∧
    (scorePageScan emptyScan).recommendations.riskyLocators = [] ∧
    ¬∃ x, x ∈ (scorePageScan emptyScan).recommendations.topLocators ∧
          x ∈ (scorePageScan emptyScan).recommendations.riskyLocators := by
  have hs : sortByScoreDesc (scorePageScan emptyScan).scored = [] := by
    rw [show (scorePageScan emptyScan).scored = [] from rfl]
    exact List.mergeSort_nil
  have htop : (scorePageScan emptyScan).recommendations.topLocators = [] := by
    have h1 : (scorePageScan emptyScan).recommendations.topLocators =
        (sortByScoreDesc (scorePageScan emptyScan).scored).take 10 := by
      unfold scorePageScan sortByScoreDesc
      rfl
    rw [h1, hs]
    rfl
  have hrisky : (scorePageScan emptyScan).recommendations.riskyLocators = [] := by
    have h1 : (scorePageScan emptyScan).recommendations.riskyLocators =
        ((sortByScoreDesc (scorePageScan emptyScan).scored).drop
          ((sortByScoreDesc (scorePageScan emptyScan).scored).length - 10)).reverse := by
      unfold scorePageScan sortByScoreDesc
      rfl
    rw [h1, hs]
    rfl
  refine ⟨by decide, htop, hrisky, ?_⟩
  rintro ⟨x, hx, -⟩
  rw [htop] at hx
  exact absurd hx (List.not_mem_nil x)

theorem sortByScoreDesc_sorted (l : List LocatorScore) :
    (sortByScoreDesc l).Sorted fun a b => b.totalScore ≤ a.totalScore := by
  have h := @List.sorted_mergeSort LocatorScore
    (fun a b : LocatorScore => decide (b.totalScore ≤ a.totalScore))
    (fun a b c hab hbc => by
      simp only [decide_eq_true_iff] at *
      omega)
    (fun a b => by
      simp only [Bool.or_eq_true, decide_eq_true_iff]
      omega)
    l
  exact h.imp fun hab => by simpa using hab

theorem get_mem_take {α : Type} {l : List α} {i k : Nat} (h2 : i < l.length)
    (hi : i < k) : l.get ⟨i, h2⟩ ∈ l.take k := by
  have h3 : (l.take k).get ⟨i, by simp; omega⟩ = l.get ⟨i, h2⟩ := by
    simp [List.getElem_take]
  rw [← h3]
  exact List.get_mem _ _ _

theorem get_mem_drop {α : Type} {l : List α} {i : Nat} (h : i < l.length) :
    l.get ⟨i, h⟩ ∈ l.drop i := by
  have h0 : 0 < (l.drop i).length := by simp; omega
  have h3 : (l.drop i).get ⟨0, h0⟩ = l.get ⟨i, h⟩ := by
    simp [List.getElem_drop]
  rw [← h3]
  exact List.get_mem _ _ _

/-- C10 (amended): `topLocators` is the first 10 and `riskyLocators` the
last 10 (reversed) of one common stable descending sort of the scored
locators; when the page has at least one and fewer than 20 scored locators
the two lists share an element, and with at most 10 each list contains every
scored locator. -/
theorem top_risky_from_common_sort (scan : PageLocatorScan) :
    (scorePageScan scan).recommendations.topLocators =
      (sortByScoreDesc (scorePageScan scan).scored).take 10 ∧
    (scorePageScan scan).recommendations.riskyLocators =
      ((sortByScoreDesc (scorePageScan scan).scored).drop
        ((sortByScoreDesc (scorePageScan scan).scored).length - 10)).reverse ∧
    (sortByScoreDesc (scorePageScan scan).scored).Perm (scorePageScan scan).scored ∧
    (sortByScoreDesc (scorePageScan scan).scored).Sorted
      (fun a b => b.totalScore ≤ a.totalScore) ∧
    (0 < (scorePageScan scan).scored.length → (scorePageScan scan).scored.length < 20 →
      ∃ x, x ∈ (scorePageScan scan).recommendations.topLocators ∧
           x ∈ (scorePageScan scan).recommendations.riskyLocators) ∧
    ((scorePageScan scan).scored.length ≤ 10 →
      (∀ x, x ∈ (scorePageScan scan).scored ↔
        x ∈ (scorePageScan scan).recommendations.topLocators) ∧
      (∀ x, x ∈ (scorePageScan scan).scored ↔
        x ∈ (scorePageScan scan).recommendations.riskyLocators)) := by
  have htop : (scorePageScan scan).recommendations.topLocators =
      (sortByScoreDesc (scorePageScan scan).scored).take 10 := by
    unfold scorePageScan sortByScoreDesc
    rfl
  have hrisky : (scorePageScan scan).recommendations.riskyLocators =
      ((sortByScoreDesc (scorePageScan scan).scored).drop
        ((sortByScoreDesc (scorePageScan scan).scored).length - 10)).reverse := by
    unfold scorePageScan sortByScoreDesc
    rfl
  have hperm : (sortByScoreDesc (scorePageScan scan).scored).Perm
      (scorePageScan scan).scored := List.mergeSort_perm _ _
  have hlen : (sortByScoreDesc (scorePageScan scan).scored).length =
      (scorePageScan scan).scored.length := hperm.length_eq
  refine ⟨htop, hrisky, hperm, sortByScoreDesc_sorted _, ?_, ?_⟩
  · intro hpos h20
    have hidx : (sortByScoreDesc (scorePageScan scan).scored).length - 10 <
        (sortByScoreDesc (scorePageScan scan).scored).length := by omega
    refine ⟨(sortByScoreDesc (scorePageScan scan).scored).get
      ⟨(sortByScoreDesc (scorePageScan scan).scored).length - 10, hidx⟩, ?_, ?_⟩
    · rw [htop]
      exact get_mem_take hidx (by omega)
    · rw [hrisky, List.mem_reverse]
      exact get_mem_drop hidx
  · intro hle
    have htake : (sortByScoreDesc (scorePageScan scan).scored).take 10 =
        sortByScoreDesc (scorePageScan scan).scored :=
      List.take_of_length_le (by omega)
    have hzero : (sortByScoreDesc (scorePageScan scan).scored).length - 10 = 0 := by
      omega
    constructor
    · intro x
      rw [htop, htake]
      exact hperm.mem_iff.symm
    · intro x
      rw [hrisky, hzero, List.drop_zero, List.mem_reverse]
      exact hperm.mem_iff.symm

theorem top_risky_from_common_sort_witness :
    (0 < (scorePageScan singletonScan).scored.length ∧
      (scorePageScan singletonScan).scored.length < 20) ∧
    ∃ x, x ∈ (scorePageScan singletonScan).recommendations.topLocators ∧
         x ∈ (scorePageScan singletonScan).recommendations.riskyLocators :=
  ⟨⟨by decide, by decide⟩,
    (top_risky_from_common_sort singletonScan).2.2.2.2.1 (by decide) (by decide)⟩

end Pathfinder
